import Mathlib

/-!
# Verification of the logdock structured logging core

Shallow embedding of the `logharbour` package: the priority enumeration,
the log-entry model, JSON serialization of entries, the `FallbackWriter`
failover sink, and the `Logger` emission pipeline
(priority filter → validation → serialize → write).

Go machine integers are modelled as `Int`; byte slices as `String`
(the serialized records are text); Go's `error` values as
`Option GoError` with `none` standing for `nil`; `io.Writer`
capabilities as pure behavior functions plus an explicit trace of the
byte slices each branch of the sink received.
-/

set_option autoImplicit false

namespace Logharbour

/-- A Go `error` value (its message); `none` in an `Option GoError` is Go's `nil`. -/
abbrev GoError := String

/-! ## Priority and log-type enumerations (types.go) -/

/-- `type LogPriority int`: severity level of a log message. -/
abbrev LogPriority := Int

/-- `Debug2 LogPriority = iota + 1`: extremely verbose debugging information. -/
def Debug2 : LogPriority := 1
/-- Detailed debugging information. -/
def Debug1 : LogPriority := 2
/-- High-level debugging information. -/
def Debug0 : LogPriority := 3
/-- Informational messages. -/
def Info : LogPriority := 4
/-- Warning messages. -/
def Warn : LogPriority := 5
/-- Error messages where operations failed to complete. -/
def Err : LogPriority := 6
/-- Critical failure messages. -/
def Crit : LogPriority := 7
/-- Security alert messages. -/
def Sec : LogPriority := 8

/-- `const DefaultPriority = Info`. -/
def DefaultPriority : LogPriority := Info

/-- `func (lp LogPriority) string() string`: canonical name of a priority,
`"Unknown"` for unrecognized values. -/
def LogPriority.string (lp : LogPriority) : String :=
  if lp = Debug2 then "Debug2"
  else if lp = Debug1 then "Debug1"
  else if lp = Debug0 then "Debug0"
  else if lp = Info then "Info"
  else if lp = Warn then "Warn"
  else if lp = Err then "Err"
  else if lp = Crit then "Crit"
  else if lp = Sec then "Sec"
  else "Unknown"

/-- `type LogType int`: category of a log message. -/
abbrev LogType := Int

/-- `LogTypeChange LogType = iota + 1`: a log entry for data changes. -/
def LogTypeChange : LogType := 1
/-- A log entry for activities such as web service calls. -/
def LogTypeActivity : LogType := 2
/-- A log entry for debug information. -/
def LogTypeDebug : LogType := 3

/-- `func (lt LogType) string() string`: canonical name of a log type,
`"Unknown"` for unrecognized values. -/
def LogType.string (lt : LogType) : String :=
  if lt = LogTypeChange then "Change"
  else if lt = LogTypeActivity then "Activity"
  else if lt = LogTypeDebug then "Debug"
  else "Unknown"

/-- `type Status int` with `Success Status = iota; Failure`. -/
abbrev Status := Int

/-- `Success Status = iota` (= 0). -/
def Success : Status := 0
/-- `Failure` (= 1). -/
def Failure : Status := 1

/-! ## JSON serialization (encoding/json as used by the entry model) -/

/-- Hexadecimal digit character, as produced by Go's `encoding/json`
for `\u00XX` escapes (lower-case letters). -/
def hexDigit (n : Nat) : Char :=
  if n < 10 then Char.ofNat (48 + n) else Char.ofNat (87 + n)

/-- Escaping of one character inside a JSON string literal, following
Go's `encoding/json` encoder (HTML-escaping enabled, its default). -/
def jsonEscapeChar (c : Char) : String :=
  if c = '"' then "\\\""
  else if c = '\\' then "\\\\"
  else if c = '\n' then "\\n"
  else if c = '\r' then "\\r"
  else if c = '\t' then "\\t"
  else if c.toNat < 32 then
    String.mk ['\\', 'u', '0', '0', hexDigit (c.toNat / 16), hexDigit (c.toNat % 16)]
  else if c = '<' then "\\u003c"
  else if c = '>' then "\\u003e"
  else if c = '&' then "\\u0026"
  else if c.toNat = 8232 then "\\u2028"
  else if c.toNat = 8233 then "\\u2029"
  else String.singleton c

/-- JSON string literal for a Go string, per Go's `encoding/json`. -/
def jsonQuote (s : String) : String :=
  "\"" ++ String.join (s.data.map jsonEscapeChar) ++ "\""

/-- `func (lp LogPriority) MarshalJSON() ([]byte, error)`:
`json.Marshal(lp.string())` — always succeeds, rendering the canonical name. -/
def LogPriority.marshalJSON (lp : LogPriority) : String :=
  jsonQuote (LogPriority.string lp)

/-- `func (lt LogType) MarshalJSON() ([]byte, error)`:
`json.Marshal(lt.string())` — always succeeds, rendering the canonical name. -/
def LogType.marshalJSON (lt : LogType) : String :=
  jsonQuote (LogType.string lt)

/-- A Go `any` payload (the `Data` field), modelled by the outcome of
`json.Marshal` on it: either the JSON text it marshals to, or the error
`json.Marshal` reports (e.g. for a channel or function value). -/
inductive GoValue where
  | json (s : String)
  | unsupported (msg : GoError)
  deriving DecidableEq

/-- `json.Marshal` on an `any` payload. -/
def marshalGoValue : GoValue → Except GoError String
  | .json s => .ok s
  | .unsupported msg => .error msg

/-! ## The entry model (types.go `LogEntry`) -/

/-- `type LogEntry struct`: all the relevant information for a log message.
`When` (a `time.Time`) is modelled by its RFC 3339 rendering; `Data` (an
`any`) by a `GoValue`; the Go field `Type` is named `EType` here because
`Type` is reserved in Lean. -/
structure LogEntry where
  AppName : String
  System : String
  Module : String
  EType : LogType
  Priority : LogPriority
  When : String
  Who : String
  Op : String
  WhatClass : String
  WhatInstanceId : String
  Status : Status
  RemoteIP : String
  Message : String
  Data : GoValue
  deriving DecidableEq

/-- `json.Marshal` on a `LogEntry`: one flat JSON object in struct-field
order, strings quoted per `encoding/json`, `Type` and `Priority` rendered
through their `MarshalJSON` methods (canonical names), `Status` as its
integer, `Data` through `marshalGoValue` (the only fallible field). -/
def marshalLogEntry (e : LogEntry) : Except GoError String :=
  match marshalGoValue e.Data with
  | .error msg => .error msg
  | .ok dataJson =>
      .ok ("\x7b\"AppName\":" ++ jsonQuote e.AppName
        ++ ",\"System\":" ++ jsonQuote e.System
        ++ ",\"Module\":" ++ jsonQuote e.Module
        ++ ",\"Type\":" ++ LogType.marshalJSON e.EType
        ++ ",\"Priority\":" ++ LogPriority.marshalJSON e.Priority
        ++ ",\"When\":" ++ jsonQuote e.When
        ++ ",\"Who\":" ++ jsonQuote e.Who
        ++ ",\"Op\":" ++ jsonQuote e.Op
        ++ ",\"WhatClass\":" ++ jsonQuote e.WhatClass
        ++ ",\"WhatInstanceId\":" ++ jsonQuote e.WhatInstanceId
        ++ ",\"Status\":" ++ toString e.Status
        ++ ",\"RemoteIP\":" ++ jsonQuote e.RemoteIP
        ++ ",\"Message\":" ++ jsonQuote e.Message
        ++ ",\"Data\":" ++ dataJson
        ++ "\x7d")

/-! ## Byte sinks and the failover sink (types.go `FallbackWriter`) -/

/-- An `io.Writer` capability, modelled by the count and error its `Write`
returns for a given byte slice. -/
structure IOWriter where
  count : String → Int
  err : String → Option GoError

/-- Trace of the byte slices passed to each branch of a Logger's sink:
`primaryWrites` records the slices the primary writer's `Write` was invoked
with (for a plain, non-failover sink: all its writes), `fallbackWrites`
those the fallback writer's `Write` was invoked with. -/
structure SinkState where
  primaryWrites : List String
  fallbackWrites : List String
  deriving DecidableEq

/-- The empty trace: no writes received yet. -/
def SinkState.empty : SinkState := ⟨[], []⟩

/-- `type FallbackWriter struct`: wraps a primary and a fallback writer. -/
structure FallbackWriter where
  primary : IOWriter
  fallback : IOWriter

/-- `func (fw *FallbackWriter) Write(p []byte) (n int, err error)`:
attempt the primary writer; on non-nil error, attempt the fallback writer
and return its result in place of the primary's. -/
def FallbackWriter.Write (fw : FallbackWriter) (p : String) (s : SinkState) :
    (Int × Option GoError) × SinkState :=
  let s1 : SinkState := { s with primaryWrites := s.primaryWrites ++ [p] }
  match fw.primary.err p with
  | none => ((fw.primary.count p, none), s1)
  | some _ =>
      ((fw.fallback.count p, fw.fallback.err p),
       { s1 with fallbackWrites := s1.fallbackWrites ++ [p] })

/-- The Logger's destination sink: a plain `io.Writer`, or dynamically a
`*FallbackWriter` (the type test `l.writer.(*FallbackWriter)` in
`Logger.log` is a case split on this). -/
inductive LWriter where
  | plain (w : IOWriter)
  | fb (fw : FallbackWriter)

/-- One `Write` call on the Logger's sink, recording the trace. -/
def LWriter.write : LWriter → String → SinkState → (Int × Option GoError) × SinkState
  | .plain w, p, s => ((w.count p, w.err p), { s with primaryWrites := s.primaryWrites ++ [p] })
  | .fb fw, p, s => fw.Write p s

/-- A write targeted directly at the fallback branch of a `FallbackWriter`
(as in `formatAndWriteEntry(fw.fallback, entry)`). -/
def writeFallbackBranch (w : IOWriter) (p : String) (s : SinkState) :
    (Int × Option GoError) × SinkState :=
  ((w.count p, w.err p), { s with fallbackWrites := s.fallbackWrites ++ [p] })

/-! ## Host identity (utils.go) -/

/-- `func GetSystemName() string`: the `os.Hostname()` result is passed in
as a pair (host, error); on non-nil error the literal `"unknown"` is
returned instead of failing. -/
def GetSystemName (hostname : String × Option GoError) : String :=
  match hostname.2 with
  | some _ => "unknown"
  | none => hostname.1

/-! ## The Logger (logharbour.go) -/

/-- `type Logger struct`: ambient context snapshot, priority threshold,
destination sink and validator. The `validator.Validate` capability is
modelled as a function from entries to an optional error
(`validator.Struct(entry)`: `none` = accepted). The mutex only serializes
calls and is not part of the sequential state. -/
structure Logger where
  appName : String
  system : String
  module : String
  priority : LogPriority
  who : String
  op : String
  whatClass : String
  whatInstanceId : String
  status : Status
  remoteIP : String
  writer : LWriter
  validate : LogEntry → Option GoError

/-- `func (l *Logger) clone() *Logger`: a new Logger with the same values
(the writer and validator are shared by reference). -/
def Logger.clone (l : Logger) : Logger :=
  { appName := l.appName
    system := l.system
    module := l.module
    priority := l.priority
    who := l.who
    op := l.op
    whatClass := l.whatClass
    whatInstanceId := l.whatInstanceId
    status := l.status
    remoteIP := l.remoteIP
    writer := l.writer
    validate := l.validate }

/-- `validator.New()` applied to the untagged `LogEntry` struct: the
default validator accepts every entry (no `validate` struct tags exist). -/
def defaultValidate : LogEntry → Option GoError := fun _ => none

/-- `func NewLogger(appName string, writer io.Writer) *Logger`: context
fields start at their zero values, `system` from the host-name supplier,
priority at `DefaultPriority`. -/
def NewLogger (hostname : String × Option GoError) (appName : String) (writer : LWriter) :
    Logger :=
  { appName := appName
    system := GetSystemName hostname
    module := ""
    priority := DefaultPriority
    who := ""
    op := ""
    whatClass := ""
    whatInstanceId := ""
    status := 0
    remoteIP := ""
    writer := writer
    validate := defaultValidate }

/-- `func NewLoggerWithFallback(appName string, fallbackWriter *FallbackWriter) *Logger`. -/
def NewLoggerWithFallback (hostname : String × Option GoError) (appName : String)
    (fallbackWriter : FallbackWriter) : Logger :=
  NewLogger hostname appName (.fb fallbackWriter)

/-- `func (l *Logger) WithWho(who string) *Logger`. -/
def Logger.WithWho (l : Logger) (who : String) : Logger :=
  { l.clone with who := who }

/-- `func (l *Logger) WithModule(module string) *Logger`. -/
def Logger.WithModule (l : Logger) (module : String) : Logger :=
  { l.clone with module := module }

/-- `func (l *Logger) WithOp(op string) *Logger`. -/
def Logger.WithOp (l : Logger) (op : String) : Logger :=
  { l.clone with op := op }

/-- `func (l *Logger) WithWhatClass(whatClass string) *Logger`. -/
def Logger.WithWhatClass (l : Logger) (whatClass : String) : Logger :=
  { l.clone with whatClass := whatClass }

/-- `func (l *Logger) WithWhatInstanceId(whatInstanceId string) *Logger`. -/
def Logger.WithWhatInstanceId (l : Logger) (whatInstanceId : String) : Logger :=
  { l.clone with whatInstanceId := whatInstanceId }

/-- `func (l *Logger) WithStatus(status Status) *Logger`. -/
def Logger.WithStatus (l : Logger) (status : Status) : Logger :=
  { l.clone with status := status }

/-- `func (l *Logger) WithPriority(priority LogPriority) *Logger`. -/
def Logger.WithPriority (l : Logger) (priority : LogPriority) : Logger :=
  { l.clone with priority := priority }

/-- `func (l *Logger) WithRemoteIP(remoteIP string) *Logger`. -/
def Logger.WithRemoteIP (l : Logger) (remoteIP : String) : Logger :=
  { l.clone with remoteIP := remoteIP }

/-- `func (l *Logger) shouldLog(p LogPriority) bool`: `p >= l.priority`. -/
def Logger.shouldLog (l : Logger) (p : LogPriority) : Bool :=
  decide (p ≥ l.priority)

/-- `func formatAndWriteEntry(writer io.Writer, entry LogEntry) error`:
marshal the entry, append a single newline, and pass the result to the
writer's `Write` in one call; the marshal error or write error is
returned. The destination writer is the `write` function argument. -/
def formatAndWriteEntry (write : String → SinkState → (Int × Option GoError) × SinkState)
    (entry : LogEntry) (s : SinkState) : Option GoError × SinkState :=
  match marshalLogEntry entry with
  | .error e => (some e, s)
  | .ok formatted =>
      let r := write (formatted ++ "\n") s
      (r.1.2, r.2)

/-- `func (l *Logger) log(entry LogEntry) error`: re-stamp the
application name, apply the priority filter, validate; on validation
failure write to the fallback branch when the sink is a `*FallbackWriter`
and otherwise return the validation error; on success serialize and write
to the sink. -/
def Logger.log (l : Logger) (entry0 : LogEntry) (s : SinkState) :
    Option GoError × SinkState :=
  let entry := { entry0 with AppName := l.appName }
  if l.shouldLog entry.Priority then
    match l.validate entry with
    | some validationErr =>
        match l.writer with
        | .fb fw => formatAndWriteEntry (writeFallbackBranch fw.fallback) entry s
        | .plain _ => (some validationErr, s)
    | none => formatAndWriteEntry l.writer.write entry s
  else
    (none, s)

/-- `func (l *Logger) newLogEntry(message string, data any) LogEntry`:
an entry from the current context snapshot; `When` is the emission-time
timestamp (`time.Now().UTC()`), passed in as `now`; `Type` is left at its
zero value for the emission method to set. -/
def Logger.newLogEntry (l : Logger) (now message : String) (data : GoValue) : LogEntry :=
  { AppName := l.appName
    System := l.system
    Module := l.module
    EType := 0
    Priority := l.priority
    When := now
    Who := l.who
    Op := l.op
    WhatClass := l.whatClass
    WhatInstanceId := l.whatInstanceId
    Status := l.status
    RemoteIP := l.remoteIP
    Message := message
    Data := data }

/-- `func (l *Logger) LogDataChange(message string, data ChangeInfo) error`. -/
def Logger.LogDataChange (l : Logger) (now message : String) (data : GoValue)
    (s : SinkState) : Option GoError × SinkState :=
  l.log { l.newLogEntry now message data with EType := LogTypeChange } s

/-- `func (l *Logger) LogActivity(message string, data ActivityInfo) error`. -/
def Logger.LogActivity (l : Logger) (now message : String) (data : GoValue)
    (s : SinkState) : Option GoError × SinkState :=
  l.log { l.newLogEntry now message data with EType := LogTypeActivity } s

/-- `func (l *Logger) LogDebug(message string, data DebugInfo) error`:
`data` is the `DebugInfo` payload after the pipeline filled its
caller-location fields, modelled by its marshaling outcome. -/
def Logger.LogDebug (l : Logger) (now message : String) (data : GoValue)
    (s : SinkState) : Option GoError × SinkState :=
  l.log { l.newLogEntry now message data with EType := LogTypeDebug } s

/-- `func (l *Logger) ChangePriority(newPriority LogPriority)`: mutates the
Logger's threshold in place under the lock; modelled as the state
transition on the Logger value. -/
def Logger.ChangePriority (l : Logger) (newPriority : LogPriority) : Logger :=
  { l with priority := newPriority }

/-! ## Concrete inputs used by witnesses and counterexamples -/

/-- A writer whose `Write` always succeeds, reporting the full length. -/
def okWriter : IOWriter :=
  { count := fun p => (p.length : Int), err := fun _ => none }

/-- A writer whose `Write` always fails with `"disk full"`. -/
def failingWriter : IOWriter :=
  { count := fun _ => 0, err := fun _ => some "disk full" }

/-- A validator that rejects every entry. -/
def rejectAllValidate : LogEntry → Option GoError := fun _ => some "invalid entry"

/-- A sample entry with an always-marshalable payload. -/
def sampleEntry : LogEntry :=
  { AppName := "App"
    System := "host"
    Module := "mod"
    EType := LogTypeActivity
    Priority := Info
    When := "2024-01-01T00:00:00Z"
    Who := "alice"
    Op := "op"
    WhatClass := "cls"
    WhatInstanceId := "id1"
    Status := Success
    RemoteIP := "10.0.0.1"
    Message := "hello"
    Data := .json "null" }

/-- A sample logger: threshold `Debug2`, rejecting validator, failover sink
whose primary succeeds and whose fallback always fails. -/
def cxLogger : Logger :=
  { appName := "App"
    system := "host"
    module := ""
    priority := Debug2
    who := ""
    op := ""
    whatClass := ""
    whatInstanceId := ""
    status := Success
    remoteIP := ""
    writer := .fb ⟨okWriter, failingWriter⟩
    validate := rejectAllValidate }

/-- A sample logger: threshold `Debug2`, rejecting validator, failover sink
with failing primary and working fallback. -/
def wLogger : Logger :=
  { cxLogger with writer := .fb ⟨failingWriter, okWriter⟩ }

/-- A sample logger: threshold `Debug2`, rejecting validator, plain
(non-failover) sink. -/
def pLogger : Logger :=
  { cxLogger with writer := .plain okWriter }

/-- The JSON record `sampleEntry` serializes to. -/
def recSample : String :=
  "\x7b\"AppName\":\"App\",\"System\":\"host\",\"Module\":\"mod\",\"Type\":\"Activity\","
    ++ "\"Priority\":\"Info\",\"When\":\"2024-01-01T00:00:00Z\",\"Who\":\"alice\","
    ++ "\"Op\":\"op\",\"WhatClass\":\"cls\",\"WhatInstanceId\":\"id1\",\"Status\":0,"
    ++ "\"RemoteIP\":\"10.0.0.1\",\"Message\":\"hello\",\"Data\":null\x7d"

end Logharbour

namespace Logharbour

/-! ## Helper lemmas -/

/-- An emission below the threshold returns `nil` and leaves the sink trace
unchanged, for every logger (hence for every validator and sink behavior). -/
theorem log_of_lt_priority (l : Logger) (entry : LogEntry) (s : SinkState)
    (h : entry.Priority < l.priority) :
    l.log entry s = (none, s) := by
  unfold Logger.log
  simp [Logger.shouldLog, not_le.mpr h]

/-- The canonical priority name is one of the nine literal strings. -/
theorem logPriority_string_mem (lp : LogPriority) :
    LogPriority.string lp = "Debug2" ∨ LogPriority.string lp = "Debug1" ∨
    LogPriority.string lp = "Debug0" ∨ LogPriority.string lp = "Info" ∨
    LogPriority.string lp = "Warn" ∨ LogPriority.string lp = "Err" ∨
    LogPriority.string lp = "Crit" ∨ LogPriority.string lp = "Sec" ∨
    LogPriority.string lp = "Unknown" := by
  unfold LogPriority.string
  split_ifs <;> simp

/-- The canonical log-type name is one of the four literal strings. -/
theorem logType_string_mem (lt : LogType) :
    LogType.string lt = "Change" ∨ LogType.string lt = "Activity" ∨
    LogType.string lt = "Debug" ∨ LogType.string lt = "Unknown" := by
  unfold LogType.string
  split_ifs <;> simp

/-- `MarshalJSON` of a priority is its canonical name in plain quotes (none
of the nine names needs escaping). -/
theorem logPriority_marshalJSON_eq (lp : LogPriority) :
    LogPriority.marshalJSON lp = "\"" ++ LogPriority.string lp ++ "\"" := by
  unfold LogPriority.marshalJSON
  rcases logPriority_string_mem lp with h | h | h | h | h | h | h | h | h <;> rw [h] <;> rfl

/-- `MarshalJSON` of a log type is its canonical name in plain quotes. -/
theorem logType_marshalJSON_eq (lt : LogType) :
    LogType.marshalJSON lt = "\"" ++ LogType.string lt ++ "\"" := by
  unfold LogType.marshalJSON
  rcases logType_string_mem lt with h | h | h | h <;> rw [h] <;> rfl

/-! ## Claim theorems -/

/-- C2: an emission whose entry has priority strictly below the Logger's
threshold returns success (`nil`) and leaves the sink trace unchanged; the
equation holds for every logger, so in particular for every validator and
every sink behavior — the Validator's verdict and the sink are never
consulted (made explicit by the second conjunct, which replaces both). -/
theorem log_suppressed_below_threshold (l : Logger) (entry : LogEntry) (s : SinkState)
    (h : entry.Priority < l.priority) :
    l.log entry s = (none, s)
    ∧ ∀ (v : LogEntry → Option GoError) (w : LWriter),
        ({ l with validate := v, writer := w } : Logger).log entry s = (none, s) :=
  ⟨log_of_lt_priority l entry s h,
   fun v w => log_of_lt_priority { l with validate := v, writer := w } entry s h⟩

/-- Witness for C2: a fresh logger (threshold `Info`) suppresses a
`Debug0` entry. -/
theorem log_suppressed_below_threshold_witness :
    ({ sampleEntry with Priority := Debug0 } : LogEntry).Priority
      < ({ cxLogger with priority := Info } : Logger).priority
    ∧ ({ cxLogger with priority := Info } : Logger).log
        { sampleEntry with Priority := Debug0 } SinkState.empty = (none, SinkState.empty) :=
  ⟨by decide,
   (log_suppressed_below_threshold { cxLogger with priority := Info }
      { sampleEntry with Priority := Debug0 } SinkState.empty (by decide)).1⟩

/-- C3: the priority enumeration is totally ordered by integer rank,
`Debug2 < Debug1 < Debug0 < Info < Warn < Err < Crit < Sec`; the
admission test `shouldLog` is inclusive (`p ≥ threshold`), so a priority
equal to the threshold is admitted and a threshold of `Debug2` admits all
eight defined priorities. -/
theorem priority_total_order_and_inclusive_threshold :
    (Debug2 < Debug1 ∧ Debug1 < Debug0 ∧ Debug0 < Info ∧ Info < Warn ∧
     Warn < Err ∧ Err < Crit ∧ Crit < Sec)
    ∧ (∀ (l : Logger) (p : LogPriority), l.shouldLog p = true ↔ p ≥ l.priority)
    ∧ (∀ l : Logger, l.shouldLog l.priority = true)
    ∧ (∀ l : Logger, l.priority = Debug2 →
        (l.shouldLog Debug2 ∧ l.shouldLog Debug1 ∧ l.shouldLog Debug0 ∧
         l.shouldLog Info ∧ l.shouldLog Warn ∧ l.shouldLog Err ∧
         l.shouldLog Crit ∧ l.shouldLog Sec)) := by
  refine ⟨by decide, fun l p => ?_, fun l => ?_, fun l h => ?_⟩
  · simp [Logger.shouldLog]
  · simp [Logger.shouldLog]
  · simp only [Logger.shouldLog, h]
    refine ⟨?_, ?_, ?_, ?_, ?_, ?_, ?_, ?_⟩ <;> decide

/-- Witness for C3: the logger `cxLogger` is thresholded at `Debug2` and
admits all eight defined priorities. -/
theorem priority_total_order_witness :
    cxLogger.priority = Debug2
    ∧ (cxLogger.shouldLog Debug2 ∧ cxLogger.shouldLog Debug1 ∧ cxLogger.shouldLog Debug0 ∧
       cxLogger.shouldLog Info ∧ cxLogger.shouldLog Warn ∧ cxLogger.shouldLog Err ∧
       cxLogger.shouldLog Crit ∧ cxLogger.shouldLog Sec) :=
  ⟨rfl, priority_total_order_and_inclusive_threshold.2.2.2 cxLogger rfl⟩

/-- C5: every context-derivation operation returns exactly the source
Logger with its one designated field replaced — all other context fields
are copied and the writer and validator capabilities are the same
references; the source value itself is immutable (derivation constructs a
new record), so later emissions on the source are unaffected. -/
theorem with_operations_change_exactly_one_field (l : Logger) (v : String)
    (st : Status) (p : LogPriority) :
    l.WithWho v = { l with who := v }
    ∧ l.WithModule v = { l with module := v }
    ∧ l.WithOp v = { l with op := v }
    ∧ l.WithWhatClass v = { l with whatClass := v }
    ∧ l.WithWhatInstanceId v = { l with whatInstanceId := v }
    ∧ l.WithStatus st = { l with status := st }
    ∧ l.WithPriority p = { l with priority := p }
    ∧ l.WithRemoteIP v = { l with remoteIP := v } :=
  ⟨rfl, rfl, rfl, rfl, rfl, rfl, rfl, rfl⟩

/-- C7: `ChangePriority` is the threshold-replacement transition on the
Logger's state: the resulting state has the new threshold, every other
field (context, writer, validator) is untouched, every subsequent
emission filters against the new threshold, and a Logger derived earlier
keeps its own copied threshold (derivation snapshots the value, so it is
insulated from the parent's later mutation). -/
theorem changePriority_replaces_threshold_in_place (l : Logger) (p : LogPriority) :
    (l.ChangePriority p).priority = p
    ∧ l.ChangePriority p = { l with priority := p }
    ∧ (∀ q : LogPriority, (l.ChangePriority p).shouldLog q = decide (q ≥ p))
    ∧ (∀ who : String, (l.WithWho who).priority = l.priority) :=
  ⟨rfl, rfl, fun _ => rfl, fun _ => rfl⟩

/-- C9: Logger construction is total: the `system` field is the host-name
supplier's result, and when the supplier reports an error the literal
`"unknown"` is substituted instead of failing construction. -/
theorem construction_substitutes_unknown_hostname :
    (∀ (h : String) (e : GoError), GetSystemName (h, some e) = "unknown")
    ∧ (∀ h : String, GetSystemName (h, none) = h)
    ∧ (∀ (hr : String × Option GoError) (app : String) (w : LWriter),
        (NewLogger hr app w).system = GetSystemName hr) :=
  ⟨fun _ _ => rfl, fun _ => rfl, fun _ _ _ => rfl⟩

/-- C10: every Logger built by `NewLogger` starts with threshold `Info`
(the `DefaultPriority`), and any Logger thresholded at `Info` suppresses
every `Debug0`/`Debug1`/`Debug2` entry: the emission returns success and
the sink trace is unchanged, for every validator and sink behavior (the
equation is universal in the logger's remaining fields). -/
theorem newLogger_starts_at_info_and_suppresses_debug :
    (∀ (hr : String × Option GoError) (app : String) (w : LWriter),
        (NewLogger hr app w).priority = Info)
    ∧ (∀ l : Logger, l.priority = Info → ∀ (entry : LogEntry) (s : SinkState),
        (entry.Priority = Debug0 ∨ entry.Priority = Debug1 ∨ entry.Priority = Debug2) →
        l.log entry s = (none, s)) := by
  refine ⟨fun _ _ _ => rfl, fun l hl entry s hp => ?_⟩
  apply log_of_lt_priority
  rw [hl]
  rcases hp with h | h | h <;> rw [h] <;> decide

/-- C4: `FallbackWriter.Write` tries the primary writer first; on a nil
primary error it returns the primary's count and nil without invoking the
fallback (the fallback trace is unchanged); on a non-nil primary error it
invokes the fallback on the same bytes and returns the fallback's count
and error in place of the primary's, with no further level of failover —
in particular, with an always-failing primary and a succeeding fallback,
the call returns the fallback's count and nil and the fallback branch
receives exactly the bytes `p`. -/
theorem fallbackWriter_write_failover (fw : FallbackWriter) (p : String) (s : SinkState) :
    (fw.primary.err p = none →
      fw.Write p s = ((fw.primary.count p, none),
        { s with primaryWrites := s.primaryWrites ++ [p] }))
    ∧ (∀ e : GoError, fw.primary.err p = some e →
      fw.Write p s = ((fw.fallback.count p, fw.fallback.err p),
        { primaryWrites := s.primaryWrites ++ [p],
          fallbackWrites := s.fallbackWrites ++ [p] }))
    ∧ (fw.primary.err p ≠ none → fw.fallback.err p = none →
      (fw.Write p s).1 = (fw.fallback.count p, none)
      ∧ (fw.Write p s).2.fallbackWrites = s.fallbackWrites ++ [p]) := by
  refine ⟨fun h => ?_, fun e h => ?_, fun h1 h2 => ?_⟩
  · simp [FallbackWriter.Write, h]
  · simp [FallbackWriter.Write, h]
  · cases h : fw.primary.err p with
    | none => exact absurd h h1
    | some e => simp [FallbackWriter.Write, h, h2]

/-- Witness for C4: a failing primary and a working fallback — `Write`
returns the fallback's count and nil error, and the fallback branch
received exactly the written bytes. -/
theorem fallbackWriter_write_failover_witness :
    (⟨failingWriter, okWriter⟩ : FallbackWriter).primary.err "abc" = some "disk full"
    ∧ FallbackWriter.Write ⟨failingWriter, okWriter⟩ "abc" SinkState.empty
        = ((3, none), { primaryWrites := ["abc"], fallbackWrites := ["abc"] }) :=
  ⟨rfl,
   (fallbackWriter_write_failover ⟨failingWriter, okWriter⟩ "abc" SinkState.empty).2.1
     "disk full" rfl⟩

/-- C8: `formatAndWriteEntry` with a failing serialization returns the
serialization error and performs no write at all (the trace is returned
unchanged, for every sink behavior); with a successful serialization it
passes exactly one record followed by a single newline to the sink in one
`Write` call and returns that call's error unmodified. -/
theorem formatAndWriteEntry_single_write_or_nothing
    (write : String → SinkState → (Int × Option GoError) × SinkState)
    (entry : LogEntry) (s : SinkState) :
    (∀ m : GoError, marshalLogEntry entry = .error m →
        formatAndWriteEntry write entry s = (some m, s))
    ∧ (∀ rec : String, marshalLogEntry entry = .ok rec →
        formatAndWriteEntry write entry s =
          ((write (rec ++ "\n") s).1.2, (write (rec ++ "\n") s).2)) := by
  constructor
  · intro m h
    simp [formatAndWriteEntry, h]
  · intro rec h
    simp [formatAndWriteEntry, h]

/-- Witness for C8: an unserializable payload propagates the marshal error
with nothing written; a serializable entry is written as one
newline-terminated record. -/
theorem formatAndWriteEntry_single_write_witness :
    marshalLogEntry { sampleEntry with Data := .unsupported "json: unsupported type" }
      = .error "json: unsupported type"
    ∧ formatAndWriteEntry (LWriter.plain okWriter).write
        { sampleEntry with Data := .unsupported "json: unsupported type" } SinkState.empty
      = (some "json: unsupported type", SinkState.empty)
    ∧ marshalLogEntry sampleEntry = .ok recSample
    ∧ formatAndWriteEntry (LWriter.plain okWriter).write sampleEntry SinkState.empty
      = (none, { primaryWrites := [recSample ++ "\n"], fallbackWrites := [] }) :=
  ⟨rfl,
   (formatAndWriteEntry_single_write_or_nothing (LWriter.plain okWriter).write
      { sampleEntry with Data := .unsupported "json: unsupported type" } SinkState.empty).1
     "json: unsupported type" rfl,
   rfl,
   (formatAndWriteEntry_single_write_or_nothing (LWriter.plain okWriter).write
      sampleEntry SinkState.empty).2 recSample rfl⟩

/-- Counterexample to C1 as stated: `cxLogger`'s entry passes the priority
filter and is rejected by the validator, and the sink is a
`FallbackWriter` — yet the call does not return success: the fallback
write fails and its error is returned to the caller. -/
theorem validation_failure_returns_success_counterexample :
    cxLogger.shouldLog sampleEntry.Priority = true
    ∧ cxLogger.validate { sampleEntry with AppName := cxLogger.appName } = some "invalid entry"
    ∧ cxLogger.writer = .fb ⟨okWriter, failingWriter⟩
    ∧ (cxLogger.log sampleEntry SinkState.empty).1 = some "disk full"
    ∧ (cxLogger.log sampleEntry SinkState.empty).1 ≠ none :=
  ⟨by decide, rfl, rfl, by decide, by decide⟩

/-- C1 (amended): when an entry passes the priority filter and is rejected
by the validator, a `FallbackWriter` sink receives the serialized entry
only on its fallback branch (the primary branch is never invoked) and the
call returns the outcome of that fallback write — `nil` exactly when
serialization and the fallback write succeed, the serialization or
fallback-write error otherwise; a non-`FallbackWriter` sink receives
nothing and the validation error is returned to the caller. -/
theorem log_validation_failure_routes_to_fallback
    (l : Logger) (entry : LogEntry) (s : SinkState) (verr : GoError)
    (hp : l.shouldLog entry.Priority = true)
    (hv : l.validate { entry with AppName := l.appName } = some verr) :
    (∀ fw : FallbackWriter, l.writer = .fb fw →
        l.log entry s =
          (match marshalLogEntry { entry with AppName := l.appName } with
           | .error m => (some m, s)
           | .ok rec =>
               (fw.fallback.err (rec ++ "\n"),
                { s with fallbackWrites := s.fallbackWrites ++ [rec ++ "\n"] })))
    ∧ (∀ w : IOWriter, l.writer = .plain w → l.log entry s = (some verr, s)) := by
  constructor
  · intro fw hw
    simp only [Logger.log, hp, if_true, hv, hw, formatAndWriteEntry, writeFallbackBranch]
  · intro w hw
    simp only [Logger.log, hp, if_true, hv, hw]

set_option maxRecDepth 8192 in
/-- Witness for C1 (amended): with a working fallback the rejected entry is
routed to the fallback branch (the primary trace stays empty) and the call
succeeds; with a plain sink the validation error is returned. -/
theorem log_validation_failure_routes_to_fallback_witness :
    wLogger.shouldLog sampleEntry.Priority = true
    ∧ wLogger.validate { sampleEntry with AppName := wLogger.appName } = some "invalid entry"
    ∧ wLogger.writer = .fb ⟨failingWriter, okWriter⟩
    ∧ wLogger.log sampleEntry SinkState.empty
        = (none, { primaryWrites := [], fallbackWrites := [recSample ++ "\n"] })
    ∧ pLogger.log sampleEntry SinkState.empty = (some "invalid entry", SinkState.empty) := by
  refine ⟨by decide, rfl, rfl, ?_, ?_⟩
  · have h := (log_validation_failure_routes_to_fallback wLogger sampleEntry
      SinkState.empty "invalid entry" (by decide) rfl).1 ⟨failingWriter, okWriter⟩ rfl
    rw [h]; decide
  · exact (log_validation_failure_routes_to_fallback pLogger sampleEntry
      SinkState.empty "invalid entry" (by decide) rfl).2 okWriter rfl

/-- C6: serialization renders `Priority` and `Type` as canonical string
names, never integer ranks: each of the eight defined priorities maps to
its own name and every unrecognized rank to `"Unknown"`; likewise the
three event kinds; their `MarshalJSON` output is exactly the quoted
canonical name; and every successfully serialized entry contains
`"Priority":"<name>"` and `"Type":"<name>"` with those canonical names. -/
theorem serialization_renders_canonical_names :
    (LogPriority.string Debug2 = "Debug2" ∧ LogPriority.string Debug1 = "Debug1" ∧
     LogPriority.string Debug0 = "Debug0" ∧ LogPriority.string Info = "Info" ∧
     LogPriority.string Warn = "Warn" ∧ LogPriority.string Err = "Err" ∧
     LogPriority.string Crit = "Crit" ∧ LogPriority.string Sec = "Sec")
    ∧ (∀ lp : LogPriority, lp < Debug2 ∨ Sec < lp → LogPriority.string lp = "Unknown")
    ∧ (LogType.string LogTypeChange = "Change" ∧
       LogType.string LogTypeActivity = "Activity" ∧
       LogType.string LogTypeDebug = "Debug")
    ∧ (∀ lt : LogType, lt < LogTypeChange ∨ LogTypeDebug < lt →
        LogType.string lt = "Unknown")
    ∧ (∀ lp : LogPriority,
        LogPriority.marshalJSON lp = "\"" ++ LogPriority.string lp ++ "\"")
    ∧ (∀ lt : LogType, LogType.marshalJSON lt = "\"" ++ LogType.string lt ++ "\"")
    ∧ (∀ (e : LogEntry) (rec : String), marshalLogEntry e = .ok rec →
        (∃ a b : String,
          rec = a ++ ",\"Priority\":" ++ ("\"" ++ LogPriority.string e.Priority ++ "\"") ++ b)
        ∧ (∃ a b : String,
          rec = a ++ ",\"Type\":" ++ ("\"" ++ LogType.string e.EType ++ "\"") ++ b)) := by
  refine ⟨by decide, fun lp h => ?_, by decide, fun lt h => ?_,
    logPriority_marshalJSON_eq, logType_marshalJSON_eq, fun e rec h => ?_⟩
  · simp only [Debug2, Sec] at h
    simp only [LogPriority.string, Debug2, Debug1, Debug0, Info, Warn, Err, Crit, Sec]
    split_ifs with h1 h2 h3 h4 h5 h6 h7 h8
    · rw [h1] at h; exact absurd h (by decide)
    · rw [h2] at h; exact absurd h (by decide)
    · rw [h3] at h; exact absurd h (by decide)
    · rw [h4] at h; exact absurd h (by decide)
    · rw [h5] at h; exact absurd h (by decide)
    · rw [h6] at h; exact absurd h (by decide)
    · rw [h7] at h; exact absurd h (by decide)
    · rw [h8] at h; exact absurd h (by decide)
    · rfl
  · simp only [LogTypeChange, LogTypeDebug] at h
    simp only [LogType.string, LogTypeChange, LogTypeActivity, LogTypeDebug]
    split_ifs with h1 h2 h3
    · rw [h1] at h; exact absurd h (by decide)
    · rw [h2] at h; exact absurd h (by decide)
    · rw [h3] at h; exact absurd h (by decide)
    · rfl
  · unfold marshalLogEntry at h
    cases hd : marshalGoValue e.Data with
    | error m => rw [hd] at h; exact absurd h (by simp)
    | ok dj =>
        rw [hd] at h
        simp only [Except.ok.injEq] at h
        subst h
        constructor
        · refine ⟨"\x7b\"AppName\":" ++ jsonQuote e.AppName
            ++ ",\"System\":" ++ jsonQuote e.System
            ++ ",\"Module\":" ++ jsonQuote e.Module
            ++ ",\"Type\":" ++ LogType.marshalJSON e.EType,
            ",\"When\":" ++ jsonQuote e.When
            ++ ",\"Who\":" ++ jsonQuote e.Who
            ++ ",\"Op\":" ++ jsonQuote e.Op
            ++ ",\"WhatClass\":" ++ jsonQuote e.WhatClass
            ++ ",\"WhatInstanceId\":" ++ jsonQuote e.WhatInstanceId
            ++ ",\"Status\":" ++ toString e.Status
            ++ ",\"RemoteIP\":" ++ jsonQuote e.RemoteIP
            ++ ",\"Message\":" ++ jsonQuote e.Message
            ++ ",\"Data\":" ++ dj
            ++ "\x7d", ?_⟩
          rw [logPriority_marshalJSON_eq]
          simp only [String.append_assoc]
        · refine ⟨"\x7b\"AppName\":" ++ jsonQuote e.AppName
            ++ ",\"System\":" ++ jsonQuote e.System
            ++ ",\"Module\":" ++ jsonQuote e.Module,
            ",\"Priority\":" ++ LogPriority.marshalJSON e.Priority
            ++ ",\"When\":" ++ jsonQuote e.When
            ++ ",\"Who\":" ++ jsonQuote e.Who
            ++ ",\"Op\":" ++ jsonQuote e.Op
            ++ ",\"WhatClass\":" ++ jsonQuote e.WhatClass
            ++ ",\"WhatInstanceId\":" ++ jsonQuote e.WhatInstanceId
            ++ ",\"Status\":" ++ toString e.Status
            ++ ",\"RemoteIP\":" ++ jsonQuote e.RemoteIP
            ++ ",\"Message\":" ++ jsonQuote e.Message
            ++ ",\"Data\":" ++ dj
            ++ "\x7d", ?_⟩
          rw [logType_marshalJSON_eq]
          simp only [String.append_assoc]

/-- Witness for C6: the serialized sample entry (priority `Info`, kind
`Activity`) contains the canonical quoted names. -/
theorem serialization_canonical_names_witness :
    marshalLogEntry sampleEntry = .ok recSample
    ∧ (∃ a b : String,
        recSample = a ++ ",\"Priority\":"
          ++ ("\"" ++ LogPriority.string sampleEntry.Priority ++ "\"") ++ b)
    ∧ (∃ a b : String,
        recSample = a ++ ",\"Type\":"
          ++ ("\"" ++ LogType.string sampleEntry.EType ++ "\"") ++ b) :=
  ⟨rfl,
   (serialization_renders_canonical_names.2.2.2.2.2.2 sampleEntry recSample rfl).1,
   (serialization_renders_canonical_names.2.2.2.2.2.2 sampleEntry recSample rfl).2⟩

/-- Witness for C10: a logger freshly constructed by `NewLogger` has
threshold `Info` and suppresses a `Debug0` entry. -/
theorem newLogger_starts_at_info_witness :
    (NewLogger ("host", none) "App" (.plain okWriter)).priority = Info
    ∧ (NewLogger ("host", none) "App" (.plain okWriter)).log
        { sampleEntry with Priority := Debug0 } SinkState.empty = (none, SinkState.empty) :=
  ⟨newLogger_starts_at_info_and_suppresses_debug.1 ("host", none) "App" (.plain okWriter),
   newLogger_starts_at_info_and_suppresses_debug.2
     (NewLogger ("host", none) "App" (.plain okWriter)) rfl
     { sampleEntry with Priority := Debug0 } SinkState.empty (Or.inl rfl)⟩

end Logharbour
